import Mathlib

/-!
Model of `src/app.py` (IBK-Bilderbuch shop).

JSON values carry Python truthiness; machine floats are modelled as
rationals. `float(...)` string parsing is modelled for finite decimal
literals (optional sign, decimal point, exponent); `inf`, `nan` and
digit underscores are outside the model, and no claim touches them.
The HTTP world of the Buchbutler inventory API and the SendGrid mail
provider are explicit oracle parameters; the SQLAlchemy session is
modelled by its committed state, with flush/rollback/commit reflected
as pure state passing (an error path returns the original state).
-/

namespace Shop

/-- JSON values as delivered by `response.json()`; `null` is JSON null,
which Python's json module decodes to `None`. -/
inductive Json where
  | null
  | bool (b : Bool)
  | num (q : ℚ)
  | str (s : String)
  | arr (elems : List Json)
  | obj (fields : List (String × Json))

/-- Python truthiness `bool(v)` on decoded JSON values. -/
def truthy : Json → Bool
  | .null => false
  | .bool b => b
  | .num q => q != 0
  | .str s => !s.isEmpty
  | .arr xs => !xs.isEmpty
  | .obj fs => !fs.isEmpty

/-- Python `d.get(k, default)` on a decoded JSON object: the stored value
when the key is present (even if it is JSON null), else the default. -/
def dictGetD (fs : List (String × Json)) (k : String) (d : Json) : Json :=
  match fs.lookup k with
  | some v => v
  | none => d

/-- Python `d.get(k)`: `None` (modelled `.null`) when the key is absent. -/
def dictGet (fs : List (String × Json)) (k : String) : Json :=
  dictGetD fs k .null

/-- Truthiness of an `os.getenv` result: `None` and `""` are falsy. -/
def optTruthy : Option String → Bool
  | none => false
  | some s => !s.isEmpty

/-- Numeric value of a digit list, most significant digit first. -/
def digitsVal (ds : List Char) : Nat :=
  ds.foldl (fun n c => 10 * n + (c.toNat - 48)) 0

/-- Mantissa of a float literal: digits with an optional decimal point,
at least one digit overall. Returns the value and the unconsumed rest. -/
def parseMantissa (cs : List Char) : Option (ℚ × List Char) :=
  let ip := cs.takeWhile Char.isDigit
  let r1 := cs.dropWhile Char.isDigit
  match r1 with
  | '.' :: r2 =>
    let fp := r2.takeWhile Char.isDigit
    let r3 := r2.dropWhile Char.isDigit
    if ip.isEmpty && fp.isEmpty then none
    else some ((digitsVal ip : ℚ) + (digitsVal fp : ℚ) / ((10 : ℚ) ^ fp.length), r3)
  | _ => if ip.isEmpty then none else some ((digitsVal ip : ℚ), r1)

/-- Exponent part after `e`/`E`: an optionally signed digit string that
must consume the whole rest of the literal. -/
def parseExponent (cs : List Char) : Option Int :=
  match cs with
  | '+' :: r => if !r.isEmpty && r.all Char.isDigit then some (digitsVal r) else none
  | '-' :: r => if !r.isEmpty && r.all Char.isDigit then some (-(digitsVal r : Int)) else none
  | r => if !r.isEmpty && r.all Char.isDigit then some (digitsVal r) else none

/-- Integer power of ten over ℚ. -/
def pow10 (e : Int) : ℚ :=
  match e with
  | .ofNat n => (10 : ℚ) ^ n
  | .negSucc n => 1 / (10 : ℚ) ^ (n + 1)

/-- Unsigned float literal: mantissa with an optional exponent. -/
def parseUnsignedFloat (cs : List Char) : Option ℚ :=
  match parseMantissa cs with
  | none => none
  | some (m, rest) =>
    match rest with
    | [] => some m
    | 'e' :: r => (parseExponent r).map (fun e => m * pow10 e)
    | 'E' :: r => (parseExponent r).map (fun e => m * pow10 e)
    | _ => none

/-- Python `float(s)` on finite decimal literals: surrounding whitespace
is stripped, then an optionally signed mantissa/exponent literal. -/
def parsePyFloat (s : String) : Option ℚ :=
  let cs := ((s.toList.dropWhile Char.isWhitespace).reverse.dropWhile Char.isWhitespace).reverse
  match cs with
  | '+' :: r => parseUnsignedFloat r
  | '-' :: r => (parseUnsignedFloat r).map Neg.neg
  | r => parseUnsignedFloat r

/-- Python `s.replace(",", ".")` for the one-character pattern used by
`to_float`: every comma becomes a dot. -/
def commaToDot (s : String) : String :=
  String.mk (s.toList.map (fun c => if c == ',' then '.' else c))

/-- Model of `to_float` (`src/app.py:114`): falsy inputs give `0.0`,
otherwise `float(str(value).replace(",", "."))` with any parse failure
caught to `0.0`. `str` of a float round-trips, so a numeric input is
returned as is; `str` of a bool/list/dict never parses as a float. -/
def to_float (v : Json) : ℚ :=
  if !(truthy v) then 0
  else match v with
    | .num q => q
    | .str s =>
      match parsePyFloat (commaToDot s) with
      | some q => q
      | none => 0
    | _ => 0

/-- Environment-sourced configuration (`os.getenv` results). -/
structure Config where
  buchbutlerUser : Option String
  buchbutlerPassword : Option String
  sendgridApiKey : Option String
  emailSender : Option String
deriving DecidableEq

/-- Outcome of one outbound HTTP GET: a transport-level failure (raised
by `requests.get`), or a reply with a status code and a body that either
decodes to JSON (`some`) or is malformed (`none`, `response.json()`
raises). -/
inductive HttpWorld where
  | netError
  | reply (status : Nat) (body : Option Json)

/-- Model of `buchbutler_request` (`src/app.py:122`). The world `w`
answers each `(endpoint, ean)` request. Missing or empty credentials
short-circuit to `None`. Inside the `try`: `raise_for_status` raises
exactly for client/server error statuses in [400, 600) — any other
3-digit status, 600-999 included, passes through — `response.json()`
raises on a malformed body, and `data.get("response")` raises when
`data` is not an object; every raise is caught and becomes `None`. A
present `"response"` key holding JSON null is Python `None` as well. -/
def buchbutler_request (cfg : Config) (w : String → String → HttpWorld)
    (endpoint ean : String) : Option Json :=
  if !(optTruthy cfg.buchbutlerUser) || !(optTruthy cfg.buchbutlerPassword) then none
  else match w endpoint ean with
    | .netError => none
    | .reply status body =>
      if 400 ≤ status ∧ status < 600 then none
      else match body with
        | none => none
        | some (.obj fs) =>
          match fs.lookup "response" with
          | some .null => none
          | some v => some v
          | none => none
        | some _ => none

/-- Parsed MOVEMENT record as built by `lade_bestand_von_api`. -/
structure Movement where
  preis : ℚ
  bestand : Json
  erfuellungsrate : Json
  handling_zeit : Json

/-- Model of `lade_bestand_von_api` (`src/app.py:140`). A falsy response
(`None`, `{}`, `[]`, `""`, `0`) is mapped to `None`; a non-empty list is
unwrapped to its first element; `.get` on a non-dict raises an uncaught
`AttributeError` (`.error`), which the route does not handle. -/
def lade_bestand_von_api (cfg : Config) (w : String → String → HttpWorld)
    (ean : String) : Except Unit (Option Movement) :=
  match buchbutler_request cfg w "MOVEMENT" ean with
  | none => .ok none
  | some res0 =>
    if !(truthy res0) then .ok none
    else
      let res := match res0 with
        | .arr (x :: _) => x
        | _ => res0
      match res with
      | .obj fs =>
        .ok (some
          { preis := to_float (dictGet fs "Preis")
            bestand := dictGet fs "Bestand"
            erfuellungsrate := dictGet fs "Erfuellungsrate"
            handling_zeit := dictGet fs "Handling_Zeit_in_Werktagen" })
      | _ => .error ()

/-- Parsed CONTENT record as built by `lade_produkt_von_api`. -/
structure Produkt where
  id : Json
  name : Json
  autor : Json
  preis : ℚ
  isbn : Json
  seiten : Json
  format : Json
  sprache : Json
  verlag : Json
  erscheinungsjahr : Json
  erscheinungsdatum : Json
  alter_von : Json
  alter_bis : Json
  lesealter : Json
  gewicht : Json
  laenge : Json
  breite : Json
  hoehe : Json
  extra : Json

/-- Python `v or {}`. -/
def pyOrEmptyObj (v : Json) : Json :=
  if truthy v then v else .obj []

/-- Model of `(attrs.get(k) or {}).get("Wert", "")`: raises when `attrs`,
or a truthy attribute value, is not a dict. -/
def attrWert (attrs : Json) (k : String) : Except Unit Json :=
  match attrs with
  | .obj fs =>
    match pyOrEmptyObj (dictGet fs k) with
    | .obj fs2 => .ok (dictGetD fs2 "Wert" (.str ""))
    | _ => .error ()
  | _ => .error ()

/-- Model of `lade_produkt_von_api` (`src/app.py:153`): same falsy guard
as the MOVEMENT lookup, then field extraction that raises (uncaught) on
a truthy non-dict response or attribute value. -/
def lade_produkt_von_api (cfg : Config) (w : String → String → HttpWorld)
    (ean : String) : Except Unit (Option Produkt) :=
  match buchbutler_request cfg w "CONTENT" ean with
  | none => .ok none
  | some res =>
    if !(truthy res) then .ok none
    else match res with
      | .obj fs =>
        let attrs := pyOrEmptyObj (dictGet fs "Artikelattribute")
        do
          let autor ← attrWert attrs "Autor"
          let isbn ← attrWert attrs "ISBN_13"
          let seiten ← attrWert attrs "Seiten"
          let format ← attrWert attrs "Buchtyp"
          let sprache ← attrWert attrs "Sprache"
          let verlag ← attrWert attrs "Verlag"
          let erscheinungsjahr ← attrWert attrs "Erscheinungsjahr"
          let erscheinungsdatum ← attrWert attrs "Erscheinungsdatum"
          let alter_von ← attrWert attrs "Altersempfehlung_von"
          let alter_bis ← attrWert attrs "Altersempfehlung_bis"
          let lesealter ← attrWert attrs "Lesealter"
          let gewicht ← attrWert attrs "Gewicht"
          let laenge ← attrWert attrs "Laenge"
          let breite ← attrWert attrs "Breite"
          let hoehe ← attrWert attrs "Hoehe"
          pure (some
            { id := dictGet fs "pim_artikel_id"
              name := dictGet fs "bezeichnung"
              autor := autor
              preis := to_float (dictGet fs "vk_brutto")
              isbn := isbn
              seiten := seiten
              format := format
              sprache := sprache
              verlag := verlag
              erscheinungsjahr := erscheinungsjahr
              erscheinungsdatum := erscheinungsdatum
              alter_von := alter_von
              alter_bis := alter_bis
              lesealter := lesealter
              gewicht := gewicht
              laenge := laenge
              breite := breite
              hoehe := hoehe
              extra := attrs })
      | _ => .error ()

/-- Outcome of the SendGrid provider call for one message. -/
inductive MailWorld where
  | ok
  | fail
deriving DecidableEq

/-- Model of `send_email` (`src/app.py:184`): missing provider
credentials make it a logged no-op that returns normally; otherwise the
provider call either succeeds or raises (`.error`). Message assembly
(including the optional base64 attachment) cannot fail. -/
def send_email (cfg : Config) (mw : MailWorld) (subject body recipient : String)
    (pdf_bytes : Option (List Nat)) : Except Unit Unit :=
  if !(optTruthy cfg.sendgridApiKey) || !(optTruthy cfg.emailSender) then .ok ()
  else match mw with
    | .ok => .ok ()
    | .fail => .error ()

/-- Committed row of the `bestellung` table (`src/app.py:70`); the
creation timestamp is an abstract clock value. -/
structure Bestellung where
  id : Nat
  email : String
  bestelldatum : Nat
  status : String
deriving DecidableEq

/-- Committed row of the `bestell_position` table (`src/app.py:82`). -/
structure BestellPosition where
  bestell_id : Nat
  ean : String
  bezeichnung : Option String
  menge : Int
  preis : ℚ
deriving DecidableEq

/-- Committed row of the `storno_token` table (`src/app.py:90`). -/
structure StornoToken where
  bestell_id : Nat
  token : String
  created : Nat
deriving DecidableEq

/-- Committed database state; `nextBestellId` is the order-id sequence
the flush draws from. Rolled-back flushes leave the committed state
untouched in this model. -/
structure ShopDB where
  bestellungen : List Bestellung
  positionen : List BestellPosition
  storno : List StornoToken
  nextBestellId : Nat
deriving DecidableEq

/-- One entry of the session cart as shaped by the `/cart` route. -/
structure CartLine where
  title : String
  price : ℚ
  quantity : Int
deriving DecidableEq

/-- One element of the request's `auftrag_position` array. `menge` is
`none` when the key is absent (the code defaults it to 1); `preis` is a
unit price the caller may include, which the handler never reads. -/
structure AuftragPosition where
  ean : String
  pos_bezeichnung : Option String
  menge : Option Int
  preis : Option ℚ
deriving DecidableEq

/-- Decoded JSON body of `POST /bestellung`: `email` is `none` when the
key is absent, `auftrag_position` defaults to the empty list. -/
structure BestellRequest where
  email : Option String
  auftrag_position : List AuftragPosition
deriving DecidableEq

/-- HTTP-level result of `POST /bestellung`: the success JSON, the 400
error JSON, or a 500 from an uncaught exception. -/
inductive ApiResult where
  | success (bestellId : Nat)
  | clientError (msg : String)
  | serverError
deriving DecidableEq

/-- Result of the re-pricing loop over the order positions. -/
inductive LoopResult where
  | exn
  | unavailable (ean : String)
  | lines (rows : List BestellPosition)
deriving DecidableEq

/-- The `for pos in data.get("auftrag_position", [])` loop of
`neue_bestellung`: each position is looked up in the MOVEMENT oracle;
the first falsy lookup aborts with the unavailable error, an uncaught
lookup exception aborts with a 500, otherwise one `BestellPosition` row
per position is staged with the oracle-reported price. -/
def process_positionen (cfg : Config) (w : String → String → HttpWorld) (bid : Nat) :
    List AuftragPosition → LoopResult
  | [] => .lines []
  | pos :: rest =>
    match lade_bestand_von_api cfg w pos.ean with
    | .error _ => .exn
    | .ok none => .unavailable pos.ean
    | .ok (some m) =>
      match process_positionen cfg w bid rest with
      | .lines rows =>
        .lines ({ bestell_id := bid, ean := pos.ean, bezeichnung := pos.pos_bezeichnung,
                  menge := pos.menge.getD 1, preis := m.preis } :: rows)
      | r => r

/-- Model of `generate_cancel_token` (`src/app.py:210`): persists one
`StornoToken` row bound to the order id and returns the token. The
random `secrets.token_urlsafe(32)` value is the parameter `tok`. -/
def generate_cancel_token (db : ShopDB) (bid : Nat) (tok : String) (now : Nat) :
    String × ShopDB :=
  (tok, { db with storno := db.storno ++ [{ bestell_id := bid, token := tok, created := now }] })

/-- Model of `neue_bestellung` (`src/app.py:252`), `POST /bestellung`.
A falsy email is rejected with a 400 before any write. Otherwise an
order row is staged and flushed (drawing `db.nextBestellId`), the
positions are re-priced via the oracle; any failure rolls the
transaction back (committed state unchanged). On success the order and
its lines are committed, a cancel token is persisted, and the
confirmation mail is attempted inside try/except, so its outcome never
changes the response or the database. The handler never touches the
session, which is threaded through unchanged. -/
def neue_bestellung (cfg : Config) (w : String → String → HttpWorld) (mw : MailWorld)
    (now : Nat) (tok : String) (db : ShopDB) (sess : List CartLine)
    (data : BestellRequest) : ApiResult × ShopDB × List CartLine :=
  if optTruthy data.email then
    match process_positionen cfg w db.nextBestellId data.auftrag_position with
    | .exn => (.serverError, db, sess)
    | .unavailable ean => (.clientError ("Produkt " ++ ean ++ " nicht verfügbar"), db, sess)
    | .lines rows =>
      let bid := db.nextBestellId
      let committed : ShopDB :=
        { bestellungen := db.bestellungen ++
            [{ id := bid, email := data.email.getD "", bestelldatum := now, status := "offen" }]
          positionen := db.positionen ++ rows
          storno := db.storno
          nextBestellId := bid + 1 }
      let tokDb := generate_cancel_token committed bid tok now
      let _mail := send_email cfg mw "Ihre Bestellung"
        ("Vielen Dank für Ihre Bestellung!\nBestellnummer: " ++ toString bid ++
          "\nStornieren: https://deinedomain.de/storno/" ++ tokDb.1)
        (data.email.getD "") none
      (.success bid, tokDb.2, sess)
  else (.clientError "E-Mail fehlt", db, sess)

/-- JSON entry of the `GET /bestellungen` listing. -/
structure ListEntry where
  id : Nat
  email : String
  bestelldatum : Nat
deriving DecidableEq

/-- Model of `alle_bestellungen` (`src/app.py:294`): the query issues no
ORDER BY, so rows come back in table (insertion) order, which is the
order of the model's committed list. -/
def alle_bestellungen (db : ShopDB) : List ListEntry :=
  db.bestellungen.map (fun b => { id := b.id, email := b.email, bestelldatum := b.bestelldatum })

/-- A listing is newest-first when creation timestamps never increase
along it. -/
def newestFirst : List ListEntry → Bool
  | [] => true
  | [_] => true
  | a :: b :: rest => decide (b.bestelldatum ≤ a.bestelldatum) && newestFirst (b :: rest)

/-- HTTP-level result of `DELETE /bestellung/<id>`. -/
inductive DeleteResult where
  | ok
  | notFound
deriving DecidableEq

/-- Model of `bestellung_loeschen` (`src/app.py:311`): an unknown id is
a 404 with no writes; otherwise the order row is deleted and the
`cascade="all, delete"` relationship deletes every one of its position
rows. `StornoToken` rows have no cascade and are left in place. -/
def bestellung_loeschen (db : ShopDB) (bid : Nat) : DeleteResult × ShopDB :=
  match db.bestellungen.find? (fun b => b.id == bid) with
  | none => (.notFound, db)
  | some _ =>
    (.ok, { db with
      bestellungen := db.bestellungen.filter (fun b => b.id != bid)
      positionen := db.positionen.filter (fun p => p.bestell_id != bid) })

/-- Configuration with all four credentials present. -/
def cfgFull : Config :=
  { buchbutlerUser := some "user", buchbutlerPassword := some "pw",
    sendgridApiKey := some "key", emailSender := some "shop@ibk.de" }

/-- Configuration with inventory credentials but no mail credentials. -/
def cfgNoMail : Config :=
  { buchbutlerUser := some "user", buchbutlerPassword := some "pw",
    sendgridApiKey := none, emailSender := none }

/-- An oracle world that answers every request with a well-formed
MOVEMENT record priced "12,50". -/
def worldGood : String → String → HttpWorld := fun _ _ =>
  .reply 200 (some (.obj [("response", .obj [("Preis", .str "12,50"), ("Bestand", .num 5)])]))

/-- The empty committed database. -/
def db0 : ShopDB := { bestellungen := [], positionen := [], storno := [], nextBestellId := 1 }

/-- Correspondence between request positions and the rows staged by a
completed re-pricing loop: one row per position, keyed by the position's
EAN, priced from the oracle lookup for that EAN. -/
theorem process_positionen_lines_spec (cfg : Config) (w : String → String → HttpWorld)
    (bid : Nat) :
    ∀ ps rows, process_positionen cfg w bid ps = .lines rows →
      List.Forall₂ (fun pos row =>
        row.bestell_id = bid ∧ row.ean = pos.ean ∧ row.bezeichnung = pos.pos_bezeichnung ∧
        row.menge = pos.menge.getD 1 ∧
        ∃ m, lade_bestand_von_api cfg w pos.ean = Except.ok (some m) ∧ row.preis = m.preis)
        ps rows := by
  intro ps
  induction ps with
  | nil =>
    intro rows h
    simp only [process_positionen, LoopResult.lines.injEq] at h
    subst h
    exact List.Forall₂.nil
  | cons pos rest ih =>
    intro rows h
    simp only [process_positionen] at h
    cases hl : lade_bestand_von_api cfg w pos.ean with
    | error u => rw [hl] at h; simp at h
    | ok mo =>
      cases mo with
      | none => rw [hl] at h; simp at h
      | some m =>
        rw [hl] at h
        cases hr : process_positionen cfg w bid rest with
        | exn => rw [hr] at h; simp at h
        | unavailable e => rw [hr] at h; simp at h
        | lines rows2 =>
          rw [hr] at h
          simp only [LoopResult.lines.injEq] at h
          subst h
          exact List.Forall₂.cons ⟨rfl, rfl, rfl, rfl, m, hl, rfl⟩ (ih rows2 hr)

/-- A completed re-pricing loop implies every position's oracle lookup
was available. -/
theorem process_positionen_lines_available (cfg : Config) (w : String → String → HttpWorld)
    (bid : Nat) :
    ∀ ps rows, process_positionen cfg w bid ps = .lines rows →
      ∀ pos ∈ ps, lade_bestand_von_api cfg w pos.ean ≠ Except.ok none := by
  intro ps
  induction ps with
  | nil => intro rows h pos hmem; cases hmem
  | cons p rest ih =>
    intro rows h pos hmem
    simp only [process_positionen] at h
    cases hl : lade_bestand_von_api cfg w p.ean with
    | error u => rw [hl] at h; simp at h
    | ok mo =>
      cases mo with
      | none => rw [hl] at h; simp at h
      | some m =>
        rw [hl] at h
        cases hr : process_positionen cfg w bid rest with
        | exn => rw [hr] at h; simp at h
        | unavailable e => rw [hr] at h; simp at h
        | lines rows2 =>
          rcases List.mem_cons.mp hmem with rfl | hmem2
          · rw [hl]; simp
          · exact ih rows2 hr pos hmem2

/-- If every position's oracle lookup is available, the loop completes. -/
theorem process_positionen_all_ok (cfg : Config) (w : String → String → HttpWorld)
    (bid : Nat) :
    ∀ ps, (∀ pos ∈ ps, ∃ m, lade_bestand_von_api cfg w pos.ean = Except.ok (some m)) →
      ∃ rows, process_positionen cfg w bid ps = .lines rows := by
  intro ps
  induction ps with
  | nil => intro _; exact ⟨[], rfl⟩
  | cons pos rest ih =>
    intro hall
    obtain ⟨m, hm⟩ := hall pos (List.mem_cons_self pos rest)
    obtain ⟨rows, hr⟩ := ih (fun p hp => hall p (List.mem_cons_of_mem pos hp))
    exact ⟨{ bestell_id := bid, ean := pos.ean, bezeichnung := pos.pos_bezeichnung,
             menge := pos.menge.getD 1, preis := m.preis } :: rows,
           by simp [process_positionen, hm, hr]⟩

/-- Inversion of a successful `POST /bestellung`: the email was truthy,
the re-pricing loop completed, the session is unchanged, and the final
state is the input state plus one order row, the staged position rows
and one cancel token. -/
theorem neue_bestellung_success_inv {cfg : Config} {w : String → String → HttpWorld}
    {mw : MailWorld} {now : Nat} {tok : String} {db : ShopDB} {sess : List CartLine}
    {data : BestellRequest} {bid : Nat} {db2 : ShopDB} {sess2 : List CartLine}
    (h : neue_bestellung cfg w mw now tok db sess data = (.success bid, db2, sess2)) :
    bid = db.nextBestellId ∧ sess2 = sess ∧ optTruthy data.email = true ∧
    ∃ rows, process_positionen cfg w db.nextBestellId data.auftrag_position = .lines rows ∧
      db2 = { bestellungen := db.bestellungen ++
                [{ id := db.nextBestellId, email := data.email.getD "",
                   bestelldatum := now, status := "offen" }]
              positionen := db.positionen ++ rows
              storno := db.storno ++
                [{ bestell_id := db.nextBestellId, token := tok, created := now }]
              nextBestellId := db.nextBestellId + 1 } := by
  unfold neue_bestellung at h
  split at h
  case isTrue he =>
    cases hp : process_positionen cfg w db.nextBestellId data.auftrag_position with
    | exn => rw [hp] at h; simp at h
    | unavailable e => rw [hp] at h; simp at h
    | lines rows =>
      rw [hp] at h
      simp only [generate_cancel_token, Prod.mk.injEq, ApiResult.success.injEq] at h
      obtain ⟨h1, h2, h3⟩ := h
      subst h1
      exact ⟨rfl, h3.symm, he, rows, rfl, h2.symm⟩
  case isFalse he => simp at h

/-- The re-pricing loop never reads a caller-supplied `preis` field of a
position. -/
theorem process_positionen_preis_irrel (cfg : Config) (w : String → String → HttpWorld)
    (bid : Nat) (f : AuftragPosition → Option ℚ) :
    ∀ ps, process_positionen cfg w bid (ps.map (fun p => { p with preis := f p })) =
      process_positionen cfg w bid ps := by
  intro ps
  induction ps with
  | nil => rfl
  | cons pos rest ih => simp [process_positionen, ih]

/-- `POST /bestellung` is entirely independent of caller-supplied unit
prices in the submitted positions. -/
theorem neue_bestellung_preis_irrel (cfg : Config) (w : String → String → HttpWorld)
    (mw : MailWorld) (now : Nat) (tok : String) (db : ShopDB) (sess : List CartLine)
    (data : BestellRequest) (f : AuftragPosition → Option ℚ) :
    neue_bestellung cfg w mw now tok db sess
      { data with auftrag_position := data.auftrag_position.map (fun p => { p with preis := f p }) } =
      neue_bestellung cfg w mw now tok db sess data := by
  unfold neue_bestellung
  simp [process_positionen_preis_irrel]

/-- Either `POST /bestellung` succeeds with a completed re-pricing loop,
or its response is not a success and the committed state is unchanged. -/
theorem neue_bestellung_error_cases (cfg : Config) (w : String → String → HttpWorld)
    (mw : MailWorld) (now : Nat) (tok : String) (db : ShopDB) (sess : List CartLine)
    (data : BestellRequest) :
    (∃ rows, process_positionen cfg w db.nextBestellId data.auftrag_position = .lines rows) ∨
    ((neue_bestellung cfg w mw now tok db sess data).2.1 = db ∧
     ∀ bid, (neue_bestellung cfg w mw now tok db sess data).1 ≠ .success bid) := by
  unfold neue_bestellung
  split
  case isTrue he =>
    cases hp : process_positionen cfg w db.nextBestellId data.auftrag_position with
    | exn => right; exact ⟨rfl, by simp⟩
    | unavailable e => right; exact ⟨rfl, by simp⟩
    | lines rows => left; exact ⟨rows, rfl⟩
  case isFalse he => right; exact ⟨rfl, by simp⟩

/-- Session cart with one line, as in the `/cart` route. -/
def cart1 : List CartLine := [{ title := "Reife Blessuren", price := 239/10, quantity := 1 }]

/-- An order position for EAN 9999, quantity 2, with a caller price. -/
def posA : AuftragPosition :=
  { ean := "9999", pos_bezeichnung := some "Buch", menge := some 2, preis := some 1 }

/-- A valid one-line order request. -/
def dataA : BestellRequest := { email := some "a@b.com", auftrag_position := [posA] }

/-- A request with a valid email and an empty position list. -/
def dataEmpty : BestellRequest := { email := some "a@b.com", auftrag_position := [] }

/-- C1 counterexample: `submit(email="a@b.com", lines=[])` does not fail
with a validation error — it returns success and inserts one `Bestellung`
row (and zero `BestellPosition` rows), contradicting the claimed
InvalidRequest with zero writes. -/
theorem c1_counterexample_empty_lines_accepted :
    (neue_bestellung cfgFull worldGood .ok 100 "tok1" db0 [] dataEmpty).1 = .success 1 ∧
    ((neue_bestellung cfgFull worldGood .ok 100 "tok1" db0 [] dataEmpty).2.1).bestellungen =
      [{ id := 1, email := "a@b.com", bestelldatum := 100, status := "offen" }] ∧
    ((neue_bestellung cfgFull worldGood .ok 100 "tok1" db0 [] dataEmpty).2.1).positionen = [] :=
  ⟨rfl, rfl, rfl⟩

/-- C1 amended: a falsy email is rejected with the 400 error and no
writes, but a truthy email with an empty line sequence is accepted: one
order row and a cancel token are committed and no position row. -/
theorem c1_amended_validation (cfg : Config) (w : String → String → HttpWorld)
    (mw : MailWorld) (now : Nat) (tok : String) (db : ShopDB) (sess : List CartLine)
    (data : BestellRequest) :
    (optTruthy data.email = false →
      neue_bestellung cfg w mw now tok db sess data = (.clientError "E-Mail fehlt", db, sess)) ∧
    (optTruthy data.email = true → data.auftrag_position = [] →
      neue_bestellung cfg w mw now tok db sess data =
        (.success db.nextBestellId,
         { bestellungen := db.bestellungen ++
             [{ id := db.nextBestellId, email := data.email.getD "",
                bestelldatum := now, status := "offen" }]
           positionen := db.positionen
           storno := db.storno ++
             [{ bestell_id := db.nextBestellId, token := tok, created := now }]
           nextBestellId := db.nextBestellId + 1 }, sess)) := by
  constructor
  · intro he
    unfold neue_bestellung
    simp [he]
  · intro he hempty
    unfold neue_bestellung
    simp [he, hempty, process_positionen, generate_cancel_token]

/-- C1 witness: both amended branches at concrete inputs. -/
theorem c1_amended_validation_witness :
    neue_bestellung cfgFull worldGood .ok 100 "tok1" db0 []
      { email := none, auftrag_position := [] } = (.clientError "E-Mail fehlt", db0, []) ∧
    neue_bestellung cfgFull worldGood .ok 100 "tok1" db0 [] dataEmpty =
      (.success 1,
       { bestellungen := [{ id := 1, email := "a@b.com", bestelldatum := 100, status := "offen" }]
         positionen := []
         storno := [{ bestell_id := 1, token := "tok1", created := 100 }]
         nextBestellId := 2 }, []) :=
  ⟨(c1_amended_validation cfgFull worldGood .ok 100 "tok1" db0 []
      { email := none, auftrag_position := [] }).1 rfl,
   (c1_amended_validation cfgFull worldGood .ok 100 "tok1" db0 [] dataEmpty).2 rfl rfl⟩

/-- C2: when the MOVEMENT oracle reports unavailable for any submitted
line's EAN, `POST /bestellung` never answers success and the committed
database is exactly the input database — no order row, no position row,
a full rollback. -/
theorem c2_oracle_unavailable_full_rollback {cfg : Config} {w : String → String → HttpWorld}
    {mw : MailWorld} {now : Nat} {tok : String} {db : ShopDB} {sess : List CartLine}
    {data : BestellRequest} {pos : AuftragPosition}
    (hmem : pos ∈ data.auftrag_position)
    (hun : lade_bestand_von_api cfg w pos.ean = Except.ok none) :
    (∀ bid, (neue_bestellung cfg w mw now tok db sess data).1 ≠ .success bid) ∧
    (neue_bestellung cfg w mw now tok db sess data).2.1 = db := by
  rcases neue_bestellung_error_cases cfg w mw now tok db sess data with ⟨rows, hp⟩ | ⟨hdb, hne⟩
  · exact absurd hun
      (process_positionen_lines_available cfg w db.nextBestellId
        data.auftrag_position rows hp pos hmem)
  · exact ⟨hne, hdb⟩

/-- C2 witness: an oracle world that answers unavailable (404) for the
submitted EAN makes the call fail and leaves the database unchanged. -/
theorem c2_oracle_unavailable_full_rollback_witness :
    (∀ bid, (neue_bestellung cfgFull (fun _ _ => .reply 404 none) .ok 100 "tok1" db0 []
      dataA).1 ≠ .success bid) ∧
    (neue_bestellung cfgFull (fun _ _ => .reply 404 none) .ok 100 "tok1" db0 [] dataA).2.1 = db0 :=
  c2_oracle_unavailable_full_rollback (List.mem_cons_self posA []) rfl

/-- C3 counterexample: a successful submission from a visitor whose
session cart is non-empty returns that cart exactly as it was — the
claim that the success path empties the cart is false here. -/
theorem c3_counterexample_cart_not_cleared :
    (neue_bestellung cfgFull worldGood .ok 100 "tok1" db0 cart1 dataA).1 = .success 1 ∧
    (neue_bestellung cfgFull worldGood .ok 100 "tok1" db0 cart1 dataA).2.2 = cart1 ∧
    cart1 ≠ [] :=
  ⟨rfl, rfl, by simp [cart1]⟩

/-- C3 amended: `POST /bestellung` never touches the session cart; on
every path (success and failure alike) it is returned unchanged. -/
theorem c3_amended_session_untouched (cfg : Config) (w : String → String → HttpWorld)
    (mw : MailWorld) (now : Nat) (tok : String) (db : ShopDB) (sess : List CartLine)
    (data : BestellRequest) :
    (neue_bestellung cfg w mw now tok db sess data).2.2 = sess := by
  unfold neue_bestellung
  split
  · split <;> rfl
  · rfl

/-- C4: a successful submission commits exactly one order row and, per
submitted position, exactly one position row keyed by that position's
EAN and priced by the MOVEMENT oracle lookup for that EAN; the result is
bit-for-bit independent of any caller-supplied unit prices. -/
theorem c4_success_one_order_oracle_prices {cfg : Config} {w : String → String → HttpWorld}
    {mw : MailWorld} {now : Nat} {tok : String} {db : ShopDB} {sess : List CartLine}
    {data : BestellRequest} {bid : Nat} {db2 : ShopDB} {sess2 : List CartLine}
    (h : neue_bestellung cfg w mw now tok db sess data = (.success bid, db2, sess2)) :
    db2.bestellungen = db.bestellungen ++
      [{ id := bid, email := data.email.getD "", bestelldatum := now, status := "offen" }] ∧
    (∃ rows, db2.positionen = db.positionen ++ rows ∧
      rows.length = data.auftrag_position.length ∧
      List.Forall₂ (fun pos row => row.ean = pos.ean ∧ row.menge = pos.menge.getD 1 ∧
        ∃ m, lade_bestand_von_api cfg w pos.ean = Except.ok (some m) ∧ row.preis = m.preis)
        data.auftrag_position rows) ∧
    (∀ f : AuftragPosition → Option ℚ,
      neue_bestellung cfg w mw now tok db sess
        { data with auftrag_position :=
            data.auftrag_position.map (fun p => { p with preis := f p }) } =
        (.success bid, db2, sess2)) := by
  obtain ⟨hbid, hsess, he, rows, hp, hdb⟩ := neue_bestellung_success_inv h
  subst hbid
  subst hdb
  have hf := process_positionen_lines_spec cfg w db.nextBestellId
    data.auftrag_position rows hp
  refine ⟨rfl, ⟨rows, rfl, (List.Forall₂.length_eq hf).symm, ?_⟩, ?_⟩
  · exact hf.imp (fun pos row hpr => ⟨hpr.2.1, hpr.2.2.2.1, hpr.2.2.2.2⟩)
  · intro f
    rw [neue_bestellung_preis_irrel]
    exact h

/-- C4 witness: a concrete successful one-line submission; the committed
line is priced 12.5 from the oracle's "12,50", not the caller's 1. -/
theorem c4_success_one_order_oracle_prices_witness :
    ((neue_bestellung cfgFull worldGood .ok 100 "tok1" db0 [] dataA).2.1).bestellungen =
      [{ id := 1, email := "a@b.com", bestelldatum := 100, status := "offen" }] ∧
    (∃ rows,
      ((neue_bestellung cfgFull worldGood .ok 100 "tok1" db0 [] dataA).2.1).positionen =
        [] ++ rows ∧
      rows.length = dataA.auftrag_position.length ∧
      List.Forall₂ (fun pos row => row.ean = pos.ean ∧ row.menge = pos.menge.getD 1 ∧
        ∃ m, lade_bestand_von_api cfgFull worldGood pos.ean = Except.ok (some m) ∧
          row.preis = m.preis)
        dataA.auftrag_position rows) ∧
    (∀ f : AuftragPosition → Option ℚ,
      neue_bestellung cfgFull worldGood .ok 100 "tok1" db0 []
        { dataA with auftrag_position :=
            dataA.auftrag_position.map (fun p => { p with preis := f p }) } =
        (.success 1, (neue_bestellung cfgFull worldGood .ok 100 "tok1" db0 [] dataA).2.1, [])) := by
  have h : neue_bestellung cfgFull worldGood .ok 100 "tok1" db0 [] dataA =
      (.success 1, (neue_bestellung cfgFull worldGood .ok 100 "tok1" db0 [] dataA).2.1, []) := rfl
  exact c4_success_one_order_oracle_prices h

/-- Database reached from empty by two successful submissions: order 1
committed at clock 10, order 2 at clock 20. -/
def dbTwo : ShopDB :=
  (neue_bestellung cfgFull worldGood .ok 20 "tok2"
    ((neue_bestellung cfgFull worldGood .ok 10 "tok1" db0 [] dataA).2.1) []
    { email := some "c@d.com", auftrag_position := [] }).2.1

/-- C5 counterexample: after two submissions with increasing clock, the
listing comes back oldest-first (insertion order), so it is not ordered
newest-first by creation timestamp as claimed. -/
theorem c5_counterexample_not_newest_first :
    alle_bestellungen dbTwo =
      [{ id := 1, email := "a@b.com", bestelldatum := 10 },
       { id := 2, email := "c@d.com", bestelldatum := 20 }] ∧
    newestFirst (alle_bestellungen dbTwo) = false :=
  ⟨rfl, rfl⟩

/-- C5 amended: the listing contains every persisted order, and a newly
committed order is appended at the end (table insertion order, no sort
by creation timestamp). -/
theorem c5_amended_listing_insertion_order {cfg : Config} {w : String → String → HttpWorld}
    {mw : MailWorld} {now : Nat} {tok : String} {db : ShopDB} {sess : List CartLine}
    {data : BestellRequest} {bid : Nat} {db2 : ShopDB} {sess2 : List CartLine}
    (h : neue_bestellung cfg w mw now tok db sess data = (.success bid, db2, sess2)) :
    (∀ b ∈ db.bestellungen,
      ({ id := b.id, email := b.email, bestelldatum := b.bestelldatum } : ListEntry) ∈
        alle_bestellungen db) ∧
    alle_bestellungen db2 = alle_bestellungen db ++
      [{ id := bid, email := data.email.getD "", bestelldatum := now }] := by
  obtain ⟨hbid, hsess, he, rows, hp, hdb⟩ := neue_bestellung_success_inv h
  subst hbid
  subst hdb
  constructor
  · intro b hb
    exact List.mem_map_of_mem _ hb
  · simp [alle_bestellungen]

/-- C5 witness: the amended statement at a concrete submission onto the
empty database. -/
theorem c5_amended_listing_insertion_order_witness :
    (∀ b ∈ db0.bestellungen,
      ({ id := b.id, email := b.email, bestelldatum := b.bestelldatum } : ListEntry) ∈
        alle_bestellungen db0) ∧
    alle_bestellungen ((neue_bestellung cfgFull worldGood .ok 10 "tok1" db0 [] dataA).2.1) =
      alle_bestellungen db0 ++ [{ id := 1, email := "a@b.com", bestelldatum := 10 }] := by
  have h : neue_bestellung cfgFull worldGood .ok 10 "tok1" db0 [] dataA =
      (.success 1, (neue_bestellung cfgFull worldGood .ok 10 "tok1" db0 [] dataA).2.1, []) := rfl
  exact c5_amended_listing_insertion_order h

/-- C6: deleting an unknown order id is a 404 that changes nothing;
deleting an existing id answers ok, removes the order row and exactly
its position rows (cascade), keeps every other order and position, and
leaves the cancel-token table untouched. -/
theorem c6_delete_cascade_or_notfound (db : ShopDB) (bid : Nat) :
    ((∀ b ∈ db.bestellungen, b.id ≠ bid) → bestellung_loeschen db bid = (.notFound, db)) ∧
    ((∃ b ∈ db.bestellungen, b.id = bid) →
      (bestellung_loeschen db bid).1 = .ok ∧
      (∀ b ∈ ((bestellung_loeschen db bid).2).bestellungen, b.id ≠ bid) ∧
      (∀ p ∈ ((bestellung_loeschen db bid).2).positionen, p.bestell_id ≠ bid) ∧
      (∀ b ∈ db.bestellungen, b.id ≠ bid → b ∈ ((bestellung_loeschen db bid).2).bestellungen) ∧
      (∀ p ∈ db.positionen, p.bestell_id ≠ bid → p ∈ ((bestellung_loeschen db bid).2).positionen) ∧
      ((bestellung_loeschen db bid).2).storno = db.storno) := by
  constructor
  · intro hnone
    have hfind : db.bestellungen.find? (fun b => b.id == bid) = none := by
      apply List.find?_eq_none.mpr
      intro b hb
      simp [hnone b hb]
    unfold bestellung_loeschen
    rw [hfind]
  · rintro ⟨b0, hb0, hid⟩
    have hsome : (db.bestellungen.find? (fun b => b.id == bid)).isSome := by
      apply List.find?_isSome.mpr
      exact ⟨b0, hb0, by simp [hid]⟩
    cases hfind : db.bestellungen.find? (fun b => b.id == bid) with
    | none => rw [hfind] at hsome; simp at hsome
    | some bf =>
      have heq : bestellung_loeschen db bid =
          (.ok, { db with bestellungen := db.bestellungen.filter (fun b => b.id != bid)
                          positionen := db.positionen.filter (fun p => p.bestell_id != bid) }) := by
        unfold bestellung_loeschen
        rw [hfind]
      rw [heq]
      refine ⟨rfl, ?_, ?_, ?_, ?_, rfl⟩
      · intro b hb
        simpa using (List.mem_filter.mp hb).2
      · intro p hp
        simpa using (List.mem_filter.mp hp).2
      · intro b hb hne
        exact List.mem_filter.mpr ⟨hb, by simpa using hne⟩
      · intro p hp hne
        exact List.mem_filter.mpr ⟨hp, by simpa using hne⟩

/-- Two committed orders, the first with two position rows. -/
def dbDel : ShopDB :=
  { bestellungen := [{ id := 1, email := "a@b.com", bestelldatum := 10, status := "offen" },
                     { id := 2, email := "c@d.com", bestelldatum := 20, status := "offen" }]
    positionen := [{ bestell_id := 1, ean := "9999", bezeichnung := none, menge := 1, preis := 5 },
                   { bestell_id := 1, ean := "8888", bezeichnung := none, menge := 2, preis := 3 },
                   { bestell_id := 2, ean := "7777", bezeichnung := none, menge := 1, preis := 4 }]
    storno := []
    nextBestellId := 3 }

/-- C6 witness: deleting the unknown id 99 is a no-op 404; deleting
order 1 succeeds and leaves no position row of order 1 behind. -/
theorem c6_delete_cascade_or_notfound_witness :
    bestellung_loeschen dbDel 99 = (.notFound, dbDel) ∧
    (bestellung_loeschen dbDel 1).1 = .ok ∧
    (∀ p ∈ ((bestellung_loeschen dbDel 1).2).positionen, p.bestell_id ≠ 1) :=
  ⟨(c6_delete_cascade_or_notfound dbDel 99).1 (by decide),
   ((c6_delete_cascade_or_notfound dbDel 1).2 (by decide)).1,
   ((c6_delete_cascade_or_notfound dbDel 1).2 (by decide)).2.2.1⟩

/-- Failure modes of one Buchbutler request: missing or empty
credentials, a transport-level error, an HTTP error status in
[400, 600) (exactly the ones `raise_for_status` raises on), or a
malformed body. -/
def requestFails (cfg : Config) (o : HttpWorld) : Prop :=
  optTruthy cfg.buchbutlerUser = false ∨ optTruthy cfg.buchbutlerPassword = false ∨
  o = .netError ∨ (∃ st body, o = .reply st body ∧ 400 ≤ st ∧ st < 600) ∨
  (∃ st, o = .reply st none)

/-- A 300 reply carrying a well-formed MOVEMENT payload: a non-2xx
status that `raise_for_status` does not raise on. -/
def world300 : String → String → HttpWorld := fun _ _ =>
  .reply 300 (some (.obj [("response", .obj [("Preis", .str "5")])]))

/-- A 600 reply carrying a well-formed MOVEMENT payload: a deliverable
3-digit status outside [400, 600), so `raise_for_status` does not raise
on it either. -/
def world600 : String → String → HttpWorld := fun _ _ =>
  .reply 600 (some (.obj [("response", .obj [("Preis", .str "5")])]))

/-- C7 counterexample: non-2xx statuses that `raise_for_status` does
not raise on (300 below the error range, 600 above it) with a
well-formed payload do not yield unavailable — the payload is accepted
and the MOVEMENT lookup reports an available record. -/
theorem c7_counterexample_3xx_not_unavailable :
    buchbutler_request cfgFull world300 "MOVEMENT" "123" =
      some (.obj [("Preis", .str "5")]) ∧
    lade_bestand_von_api cfgFull world300 "123" ≠ Except.ok none ∧
    buchbutler_request cfgFull world600 "MOVEMENT" "123" =
      some (.obj [("Preis", .str "5")]) ∧
    lade_bestand_von_api cfgFull world600 "123" ≠ Except.ok none := by
  have hrun3 : lade_bestand_von_api cfgFull world300 "123" = Except.ok (some
      { preis := 5, bestand := Json.null, erfuellungsrate := Json.null,
        handling_zeit := Json.null }) := rfl
  have hrun6 : lade_bestand_von_api cfgFull world600 "123" = Except.ok (some
      { preis := 5, bestand := Json.null, erfuellungsrate := Json.null,
        handling_zeit := Json.null }) := rfl
  refine ⟨rfl, ?_, rfl, ?_⟩
  · rw [hrun3]
    simp
  · rw [hrun6]
    simp

/-- C7 amended: on missing credentials, a network error, an HTTP status
in [400, 600) — exactly the range `raise_for_status` raises on — or a
malformed payload, `buchbutler_request` returns unavailable (None)
without raising, and both lookups built on it report unavailable as a
value, not an exception. -/
theorem c7_amended_unavailable_on_failure (cfg : Config) (w : String → String → HttpWorld) :
    (∀ endpoint ean, requestFails cfg (w endpoint ean) →
      buchbutler_request cfg w endpoint ean = none) ∧
    (∀ ean, requestFails cfg (w "MOVEMENT" ean) →
      lade_bestand_von_api cfg w ean = Except.ok none) ∧
    (∀ ean, requestFails cfg (w "CONTENT" ean) →
      lade_produkt_von_api cfg w ean = Except.ok none) := by
  have key : ∀ endpoint ean, requestFails cfg (w endpoint ean) →
      buchbutler_request cfg w endpoint ean = none := by
    intro endpoint ean hf
    unfold buchbutler_request
    rcases hf with h | h | h | ⟨st, body, heq, hst⟩ | ⟨st, heq⟩
    · simp [h]
    · simp [h]
    · split
      · rfl
      · rw [h]
    · split
      · rfl
      · rw [heq]
        simp [hst.1, hst.2]
    · split
      · rfl
      · rw [heq]
        by_cases h4 : 400 ≤ st ∧ st < 600 <;> simp [h4]
  refine ⟨key, ?_, ?_⟩
  · intro ean hf
    unfold lade_bestand_von_api
    rw [key "MOVEMENT" ean hf]
  · intro ean hf
    unfold lade_produkt_von_api
    rw [key "CONTENT" ean hf]

/-- C7 witness: the amended statement on a world that always fails at
the transport level. -/
theorem c7_amended_unavailable_on_failure_witness :
    buchbutler_request cfgFull (fun _ _ => .netError) "MOVEMENT" "123" = none ∧
    lade_bestand_von_api cfgFull (fun _ _ => .netError) "123" = Except.ok none ∧
    lade_produkt_von_api cfgFull (fun _ _ => .netError) "123" = Except.ok none :=
  ⟨(c7_amended_unavailable_on_failure cfgFull (fun _ _ => .netError)).1 "MOVEMENT" "123"
      (Or.inr (Or.inr (Or.inl rfl))),
   (c7_amended_unavailable_on_failure cfgFull (fun _ _ => .netError)).2.1 "123"
      (Or.inr (Or.inr (Or.inl rfl))),
   (c7_amended_unavailable_on_failure cfgFull (fun _ _ => .netError)).2.2 "123"
      (Or.inr (Or.inr (Or.inl rfl)))⟩

/-- C8: `to_float` parses a locale decimal string ("12,50" gives 12.5),
maps missing (`None`) and empty inputs to 0.0, maps every string whose
comma-normalised form fails to parse to 0.0, and returns the parsed
value for every non-empty string whose normalised form parses. -/
theorem c8_to_float_locale_and_defaults :
    to_float (.str "12,50") = 25/2 ∧
    to_float .null = 0 ∧
    to_float (.str "") = 0 ∧
    (∀ s : String, parsePyFloat (commaToDot s) = none → to_float (.str s) = 0) ∧
    (∀ (s : String) (q : ℚ), s ≠ "" → parsePyFloat (commaToDot s) = some q →
      to_float (.str s) = q) := by
  refine ⟨by with_unfolding_all rfl, rfl, rfl, ?_, ?_⟩
  · intro s hnone
    unfold to_float
    split
    · rfl
    · simp [hnone]
  · intro s q hne hq
    unfold to_float
    split
    case isTrue h =>
      simp only [truthy, Bool.not_eq_true'] at h
      exact absurd ((String.isEmpty_iff s).mp (by simpa using h)) hne
    case isFalse h => simp [hq]

/-- C8 witness: the universal branches at concrete inputs "abc" and
"7,5". -/
theorem c8_to_float_locale_and_defaults_witness :
    parsePyFloat (commaToDot "abc") = none ∧ to_float (.str "abc") = 0 ∧
    to_float (.str "7,5") = 15/2 :=
  ⟨rfl, c8_to_float_locale_and_defaults.2.2.2.1 "abc" rfl,
   c8_to_float_locale_and_defaults.2.2.2.2 "7,5" (15/2) (by simp) (by with_unfolding_all rfl)⟩

/-- C9: with provider credentials absent `send_email` is a no-op that
returns without error, and the entire `POST /bestellung` result —
response, database, session — is identical whether the provider call
succeeds or raises: the committed order stands and success is still
reported when the mail fails. -/
theorem c9_mail_best_effort :
    (∀ (cfg : Config) (mw : MailWorld) (s b r : String) (p : Option (List Nat)),
      (optTruthy cfg.sendgridApiKey = false ∨ optTruthy cfg.emailSender = false) →
      send_email cfg mw s b r p = Except.ok ()) ∧
    (∀ (cfg : Config) (w : String → String → HttpWorld) (now : Nat) (tok : String)
      (db : ShopDB) (sess : List CartLine) (data : BestellRequest),
      neue_bestellung cfg w .fail now tok db sess data =
        neue_bestellung cfg w .ok now tok db sess data) := by
  constructor
  · intro cfg mw s b r p h
    unfold send_email
    rcases h with h | h <;> simp [h]
  · intro cfg w now tok db sess data
    unfold neue_bestellung
    split
    · split <;> rfl
    · rfl

/-- C9 witness: the no-op under absent credentials and the
mail-outcome independence at a concrete committed order. -/
theorem c9_mail_best_effort_witness :
    send_email cfgNoMail .fail "s" "b" "r" none = Except.ok () ∧
    neue_bestellung cfgFull worldGood .fail 100 "tok1" db0 [] dataA =
      neue_bestellung cfgFull worldGood .ok 100 "tok1" db0 [] dataA :=
  ⟨c9_mail_best_effort.1 cfgNoMail .fail "s" "b" "r" none (Or.inl rfl),
   c9_mail_best_effort.2 cfgFull worldGood 100 "tok1" db0 [] dataA⟩

/-- A world answering every MOVEMENT request with a present but empty
object response. -/
def worldEmptyResp : String → String → HttpWorld := fun _ _ =>
  .reply 200 (some (.obj [("response", .obj [])]))

/-- A one-line order request for EAN 123. -/
def dataEan123 : BestellRequest :=
  { email := some "a@b.com",
    auftrag_position :=
      [{ ean := "123", pos_bezeichnung := none, menge := some 1, preis := none }] }

/-- C10 counterexample: a response that is present but an empty object
(`{"response": {}}`) certainly lacks a price field, yet the guard
rejects it — `if not res` is Python truthiness, not an absence test —
so the submission fails instead of committing the line at price 0.0. -/
theorem c10_counterexample_empty_response_rejected :
    buchbutler_request cfgFull worldEmptyResp "MOVEMENT" "123" = some (.obj []) ∧
    lade_bestand_von_api cfgFull worldEmptyResp "123" = Except.ok none ∧
    neue_bestellung cfgFull worldEmptyResp .ok 100 "tok1" db0 [] dataEan123 =
      (.clientError "Produkt 123 nicht verfügbar", db0, []) :=
  ⟨rfl, rfl, rfl⟩

/-- A non-empty object response whose price field survives the guard as
`to_float` of whatever is (or is not) stored under "Preis". -/
theorem lade_bestand_von_api_obj {cfg : Config} {w : String → String → HttpWorld}
    {ean : String} {fs : List (String × Json)} (hne : fs ≠ [])
    (hreq : buchbutler_request cfg w "MOVEMENT" ean = some (.obj fs)) :
    lade_bestand_von_api cfg w ean = Except.ok (some
      { preis := to_float (dictGet fs "Preis"), bestand := dictGet fs "Bestand",
        erfuellungsrate := dictGet fs "Erfuellungsrate",
        handling_zeit := dictGet fs "Handling_Zeit_in_Werktagen" }) := by
  have ht : truthy (Json.obj fs) = true := by
    cases fs with
    | nil => exact absurd rfl hne
    | cons a as => rfl
  unfold lade_bestand_von_api
  rw [hreq]
  simp [ht]

/-- A re-pricing loop over positions whose lookups all succeed with
price 0 stages one row per position, each priced 0. -/
theorem process_positionen_zero_prices (cfg : Config) (w : String → String → HttpWorld)
    (bid : Nat) :
    ∀ ps, (∀ pos ∈ ps, ∃ m, lade_bestand_von_api cfg w pos.ean = Except.ok (some m) ∧
        m.preis = 0) →
      ∃ rows, process_positionen cfg w bid ps = .lines rows ∧
        rows.length = ps.length ∧ ∀ r ∈ rows, r.preis = 0 := by
  intro ps
  induction ps with
  | nil => intro _; exact ⟨[], rfl, rfl, by simp⟩
  | cons pos rest ih =>
    intro hall
    obtain ⟨m, hm, hm0⟩ := hall pos (List.mem_cons_self pos rest)
    obtain ⟨rows, hr, hlen, h0⟩ := ih (fun p hp => hall p (List.mem_cons_of_mem pos hp))
    refine ⟨{ bestell_id := bid, ean := pos.ean, bezeichnung := pos.pos_bezeichnung,
              menge := pos.menge.getD 1, preis := m.preis } :: rows,
            by simp [process_positionen, hm, hr], by simp [hlen], ?_⟩
    intro r hr2
    rcases List.mem_cons.mp hr2 with rfl | hmem
    · exact hm0
    · exact h0 r hmem

/-- C10 amended: when every submitted line's EAN is answered with a
non-empty object response whose "Preis" field is missing or unparsable
(so `to_float` gives 0), the submission does not fail: it succeeds,
committing one position row per line, each with unit price 0.0. The
guard rejects absent and falsy (empty) responses alike, not responses
that merely lack a parseable price. -/
theorem c10_amended_nonempty_object_priced_zero {cfg : Config} {w : String → String → HttpWorld}
    (mw : MailWorld) (now : Nat) (tok : String) (db : ShopDB) (sess : List CartLine)
    {data : BestellRequest}
    (hemail : optTruthy data.email = true)
    (hall : ∀ pos ∈ data.auftrag_position, ∃ fs, fs ≠ [] ∧
      buchbutler_request cfg w "MOVEMENT" pos.ean = some (.obj fs) ∧
      to_float (dictGet fs "Preis") = 0) :
    (neue_bestellung cfg w mw now tok db sess data).1 = .success db.nextBestellId ∧
    ((neue_bestellung cfg w mw now tok db sess data).2.1).bestellungen =
      db.bestellungen ++ [{ id := db.nextBestellId, email := data.email.getD "",
                            bestelldatum := now, status := "offen" }] ∧
    ((neue_bestellung cfg w mw now tok db sess data).2.1).positionen.length =
      db.positionen.length + data.auftrag_position.length ∧
    (∀ r ∈ ((neue_bestellung cfg w mw now tok db sess data).2.1).positionen.drop
        db.positionen.length, r.preis = 0) := by
  have hok : ∀ pos ∈ data.auftrag_position,
      ∃ m, lade_bestand_von_api cfg w pos.ean = Except.ok (some m) ∧ m.preis = 0 := by
    intro pos hmem
    obtain ⟨fs, hne, hreq, h0⟩ := hall pos hmem
    exact ⟨_, lade_bestand_von_api_obj hne hreq, h0⟩
  obtain ⟨rows, hp, hlen, h0⟩ :=
    process_positionen_zero_prices cfg w db.nextBestellId data.auftrag_position hok
  have hrun : neue_bestellung cfg w mw now tok db sess data =
      (.success db.nextBestellId,
       { bestellungen := db.bestellungen ++
           [{ id := db.nextBestellId, email := data.email.getD "",
              bestelldatum := now, status := "offen" }]
         positionen := db.positionen ++ rows
         storno := db.storno ++ [{ bestell_id := db.nextBestellId, token := tok, created := now }]
         nextBestellId := db.nextBestellId + 1 }, sess) := by
    unfold neue_bestellung
    rw [if_pos hemail, hp]
    simp [generate_cancel_token]
  rw [hrun]
  refine ⟨rfl, rfl, ?_, ?_⟩
  · simp [hlen]
  · intro r hmem
    rw [List.drop_left] at hmem
    exact h0 r hmem

/-- C10 witness: the amended statement on a world whose MOVEMENT record
has stock but no price field. -/
theorem c10_amended_nonempty_object_priced_zero_witness :
    (neue_bestellung cfgFull (fun _ _ => .reply 200 (some (.obj [("response",
        .obj [("Bestand", .num 3)])]))) .ok 100 "tok1" db0 [] dataEan123).1 = .success 1 ∧
    ((neue_bestellung cfgFull (fun _ _ => .reply 200 (some (.obj [("response",
        .obj [("Bestand", .num 3)])]))) .ok 100 "tok1" db0 [] dataEan123).2.1).bestellungen =
      [] ++ [{ id := 1, email := "a@b.com", bestelldatum := 100, status := "offen" }] ∧
    ((neue_bestellung cfgFull (fun _ _ => .reply 200 (some (.obj [("response",
        .obj [("Bestand", .num 3)])]))) .ok 100 "tok1" db0 [] dataEan123).2.1).positionen.length =
      0 + 1 ∧
    (∀ r ∈ ((neue_bestellung cfgFull (fun _ _ => .reply 200 (some (.obj [("response",
        .obj [("Bestand", .num 3)])]))) .ok 100 "tok1" db0 [] dataEan123).2.1).positionen.drop 0,
      r.preis = 0) :=
  c10_amended_nonempty_object_priced_zero .ok 100 "tok1" db0 [] rfl
    (by
      intro pos hmem
      simp only [dataEan123, List.mem_singleton] at hmem
      subst hmem
      exact ⟨[("Bestand", .num 3)], by simp, rfl, rfl⟩)

end Shop
